import Mathlib

/-!
Shallow embedding of `py_lead_generation/src/google_maps/engine.py`
(class `GoogleMapsEngine`).

Modelling conventions:
* Python strings are Lean `String`s, lists are Lean `List`s.
* Python `float(s)` values are modelled as exact decimal numbers
  (`Dec`: an integer numerator together with a power-of-ten exponent);
  `float` itself is modelled as a partial parser (`pyFloat`), whose
  `none` result stands for a raised `ValueError`.
* Python `round(x, 1)` is modelled as round-half-to-even of `10 * x`
  to an integer number of tenths (`pyRound1`).
* The two `re.search` patterns of `extract_lat_lang_from_url`
  (`!3d([-.\d]+)!4d([-.\d]+)` and `@([-.\d]+),([-.\d]+),`) are embedded
  as leftmost-match scanners (`searchPlace`, `searchAt`).  Because the
  character class `[-.\d]` contains neither `!` nor `,`, the greedy
  repetitions are forced to the maximal run of class characters, so the
  scanners are exact models of the regex search.
* The CSV file `google_maps_leads.csv` is modelled as a list of rows,
  each row a list of cell strings.  Opening it with mode `'a'` is
  modelled by appending to the previous contents.
* Browser interaction (navigation, rendering, the scroll loop's
  side effects) is external: the per-link page content reaching
  BeautifulSoup is abstracted by an oracle `String → SoupFields`
  giving the four selector-extracted fields of a link, and the
  discovered links are a `List String` parameter.
* A Python exception escaping `run`'s per-link loop is modelled by a
  `Bool` flag (`true` = the loop was aborted by an exception).
-/

namespace LeadGen

/-- Characters accepted by the regex character class `[-.\d]`. -/
def isCoordChar (c : Char) : Bool :=
  c == '-' || c == '.' || c.isDigit

/-- Maximal run of `[-.\d]` characters at the head of a character list,
paired with the remaining characters. -/
def coordRun : List Char → List Char × List Char
  | [] => ([], [])
  | c :: cs =>
    if isCoordChar c then
      let p := coordRun cs
      (c :: p.1, p.2)
    else ([], c :: cs)

/-- Match `!3d([-.\d]+)!4d([-.\d]+)` anchored at the head of the list,
returning the two captured groups. -/
def matchPlaceHere : List Char → Option (String × String)
  | '!' :: '3' :: 'd' :: rest =>
    let p := coordRun rest
    if p.1.isEmpty then none
    else
      match p.2 with
      | '!' :: '4' :: 'd' :: rest2 =>
        let q := coordRun rest2
        if q.1.isEmpty then none else some (String.mk p.1, String.mk q.1)
      | _ => none
  | _ => none

/-- Leftmost match of the precise place pattern `!3d([-.\d]+)!4d([-.\d]+)`,
as performed by `re.search` in `extract_lat_lang_from_url` (line 144). -/
def searchPlace : List Char → Option (String × String)
  | [] => none
  | c :: cs =>
    match matchPlaceHere (c :: cs) with
    | some r => some r
    | none => searchPlace cs

/-- Match `@([-.\d]+),([-.\d]+),` anchored at the head of the list,
returning the two captured groups. -/
def matchAtHere : List Char → Option (String × String)
  | '@' :: rest =>
    let p := coordRun rest
    if p.1.isEmpty then none
    else
      match p.2 with
      | ',' :: rest2 =>
        let q := coordRun rest2
        if q.1.isEmpty then none
        else
          match q.2 with
          | ',' :: _ => some (String.mk p.1, String.mk q.1)
          | _ => none
      | _ => none
  | _ => none

/-- Leftmost match of the coarse map-center pattern `@([-.\d]+),([-.\d]+),`,
as performed by `re.search` in `extract_lat_lang_from_url` (line 146). -/
def searchAt : List Char → Option (String × String)
  | [] => none
  | c :: cs =>
    match matchAtHere (c :: cs) with
    | some r => some r
    | none => searchAt cs

/-- Substring containment on character lists (Python's `sub in hay`). -/
def containsSub (hay sub : List Char) : Bool :=
  match hay with
  | [] => sub.isEmpty
  | _ :: t => sub.isPrefixOf hay || containsSub t sub

/-- Substring containment on strings (Python's `sub in s`). -/
def strContainsSub (s sub : String) : Bool := containsSub s.data sub.data

/-- Embedding of `GoogleMapsEngine.extract_lat_lang_from_url`
(engine.py lines 141-151): if the URL contains both `'!3d'` and `'!4d'`
it searches for the precise place pattern, otherwise it searches for the
coarse map-center pattern; if the chosen search yields no match it
returns the `('No Info', 'No Info')` sentinel pair. -/
def extract_lat_lang_from_url (url : String) : String × String :=
  if strContainsSub url "!3d" && strContainsSub url "!4d" then
    match searchPlace url.data with
    | some g => g
    | none => ("No Info", "No Info")
  else
    match searchAt url.data with
    | some g => g
    | none => ("No Info", "No Info")

/-- The specification's reading of the coordinate parser (spec section 3,
PlaceCoordinate): try the precise pattern first and, whenever it yields no
match, fall back to the coarse pattern; only when neither pattern matches
return the sentinel.  Stated here only to be compared with the code's
`extract_lat_lang_from_url`. -/
def extractSpecFallback (url : String) : String × String :=
  match searchPlace url.data with
  | some g => g
  | none =>
    match searchAt url.data with
    | some g => g
    | none => ("No Info", "No Info")

/-- Exact decimal number `num / 10 ^ exp`; the model of the (decimal
literal) values produced by Python's `float` on the strings this program
feeds to it. -/
structure Dec where
  num : ℤ
  exp : ℕ
deriving DecidableEq

/-- Value of a decimal digit string. -/
def digitsToNat (ds : List Char) : ℕ :=
  ds.foldl (fun n c => 10 * n + (c.toNat - '0'.toNat)) 0

/-- Model of Python's `float(s)` on the strings occurring in this
program: an optional sign, an integer part and an optional fractional
part, consuming the whole string; `none` models a raised `ValueError`
(in particular `pyFloat "No Info" = none`). -/
def pyFloat (s : String) : Option Dec :=
  let sr : Bool × List Char :=
    match s.data with
    | '-' :: r => (true, r)
    | '+' :: r => (false, r)
    | r => (false, r)
  let p := sr.2.span (fun c => c.isDigit)
  match p.2 with
  | [] =>
    if p.1.isEmpty then none
    else
      let n : ℤ := (digitsToNat p.1 : ℤ)
      some ⟨if sr.1 then -n else n, 0⟩
  | '.' :: r2 =>
    let q := r2.span (fun c => c.isDigit)
    if !q.2.isEmpty then none
    else if p.1.isEmpty && q.1.isEmpty then none
    else
      let n : ℤ := (digitsToNat p.1 * 10 ^ q.1.length + digitsToNat q.1 : ℤ)
      some ⟨if sr.1 then -n else n, q.1.length⟩
  | _ => none

/-- Round-half-to-even of the fraction `a / b` (for `b > 0`) to an
integer. -/
def roundHalfEvenDiv (a b : ℤ) : ℤ :=
  let f := Int.fdiv a b
  let r := a - f * b
  if 2 * r < b then f
  else if b < 2 * r then f + 1
  else if f % 2 = 0 then f else f + 1

/-- Model of Python's `round(x, 1)` on an exact decimal: the rounded
value expressed as an integer number of tenths.  Two rounded results are
equal exactly when these integers are equal. -/
def pyRound1 (d : Dec) : ℤ :=
  roundHalfEvenDiv (d.num * 10) ((10 : ℤ) ^ d.exp)

/-- The coordinate comparison performed inline in `run`
(engine.py lines 220-228): coerce the four coordinate strings with
`float` in source order, round each to one decimal digit, and compare
latitudes and longitudes.  `none` models the `ValueError` raised by
`float` on a string such as `'No Info'`; `some b` is the match verdict. -/
def coordCheck (mainLat mainLang placeLat placeLang : String) : Option Bool :=
  match pyFloat mainLat with
  | none => none
  | some ml =>
    match pyFloat mainLang with
    | none => none
    | some mg =>
      match pyFloat placeLat with
      | none => none
      | some pl =>
        match pyFloat placeLang with
        | none => none
        | some pg =>
          some (decide (pyRound1 ml = pyRound1 pl ∧ pyRound1 mg = pyRound1 pg))

/-- The four selector-extracted fields of `_parse_data_with_soup`
(engine.py lines 164-178), each already defaulted to `'No Info'` by the
external extractor when absent. -/
structure SoupFields where
  title : String
  address : String
  phone : String
  website : String

/-- Embedding of `_parse_data_with_soup` (engine.py lines 154-196): the
seven-element data row for one detail URL, given the four fields the
external HTML extractor produced for that URL. -/
def mkData (fields : SoupFields) (url : String) : List String :=
  [fields.title, fields.address, fields.phone, fields.website, url,
   (extract_lat_lang_from_url url).1, (extract_lat_lang_from_url url).2]

/-- `GoogleMapsEngine.FIELD_NAMES` (engine.py line 37). -/
def FIELD_NAMES : List String :=
  ["Title", "Address", "PhoneNumber", "WebsiteURL", "GoogleMapsURL",
   "PlaceLat", "PlaceLang"]

/-- One iteration of `run`'s per-link loop (engine.py lines 212-236),
acting on the pair (entries so far, file rows so far).  `none` models
the `ValueError` raised inside the iteration by the `float` coercions
of lines 221-224. -/
def runStep (soup : String → SoupFields) (mc : String × String) (url : String)
    (st : List (List String) × List (List String)) :
    Option (List (List String) × List (List String)) :=
  let data := mkData (soup url) url
  let pc := extract_lat_lang_from_url url
  match coordCheck mc.1 mc.2 pc.1 pc.2 with
  | none => none
  | some b => if b then some (st.1 ++ [data], st.2 ++ [data]) else some st

/-- The whole per-link loop of `run` (engine.py lines 212-236).  The
`Bool` in the result is `true` when an iteration raised (aborting the
loop with the state reached so far), `false` when every link was
processed. -/
def runLoop (soup : String → SoupFields) (mc : String × String) :
    List String → List (List String) × List (List String) →
    (List (List String) × List (List String)) × Bool
  | [], st => (st, false)
  | url :: rest, st =>
    match runStep soup mc url st with
    | none => (st, true)
    | some st2 => runLoop soup mc rest st2

/-- In-memory `self._entries` together with the contents of the sink
file `google_maps_leads.csv`, as rows. -/
structure EngineState where
  entries : List (List String)
  file : List (List String)

/-- Embedding of the data-flow of `GoogleMapsEngine.run` (engine.py
lines 198-236), given the link list produced by discovery and the field
oracle for the external HTML extractor: the file is opened in append
mode and the header row is written (lines 205-207), the reference
coordinate is parsed from `self.url` (line 210), and the per-link loop
runs (lines 212-236).  The `Bool` result is `true` when the loop was
aborted by a raised `ValueError`. -/
def run (soup : String → SoupFields) (selfUrl : String) (urls : List String)
    (st : EngineState) : EngineState × Bool :=
  let mc := extract_lat_lang_from_url selfUrl
  let r := runLoop soup mc urls (st.entries, st.file ++ [FIELD_NAMES])
  (⟨r.1.1, r.1.2⟩, r.2)

/-- Embedding of `GoogleMapsEngine.save_to_csv` (engine.py lines
239-247) acting on the target file's prior state (`none` = the file
does not exist).  The first component is `true` when the
`NotImplementedError` guard fired, which happens before the file is
opened, so the file state is returned untouched; otherwise the file is
opened with mode `'w'` and receives the header row followed by all
entries. -/
def save_to_csv (entries : List (List String))
    (file0 : Option (List (List String))) :
    Bool × Option (List (List String)) :=
  if entries.isEmpty then (true, file0)
  else (false, some (FIELD_NAMES :: entries))

/-- `GoogleMapsEngine.SLEEP_PER_SCROLL_S` (engine.py line 40). -/
def SLEEP_PER_SCROLL_S : ℕ := 2

/-- `GoogleMapsEngine.SCROLL_TIME_DURATION_S` (engine.py line 41). -/
def SCROLL_TIME_DURATION_S : ℕ := 200

/-- Iteration budget sufficient for the scroll loop: one more than
`SCROLL_TIME_DURATION_S / SLEEP_PER_SCROLL_S`. -/
def scrollFuel : ℕ := SCROLL_TIME_DURATION_S / SLEEP_PER_SCROLL_S + 1

/-- Embedding of the scroll loop of `_get_search_results_urls`
(engine.py lines 129-135).  `dur i` is the wall-clock duration of the
`i`-th scroll cycle (the `mouse.wheel` call plus the
`SLEEP_PER_SCROLL_S` pause, up to the `time.time()` capture of the next
check); `marker i` tells whether the end-of-list element is present at
the `i`-th check.  The loop stops as soon as the marker is present or
the elapsed time exceeds `SCROLL_TIME_DURATION_S`, returning the index
of the last cycle and the elapsed time; `none` is returned only when
the fuel is exhausted first. -/
def scrollLoop (dur : ℕ → ℚ) (marker : ℕ → Bool) :
    ℕ → ℕ → ℚ → Option (ℕ × ℚ)
  | 0, _, _ => none
  | fuel + 1, i, elapsed =>
    let e := elapsed + dur i
    if marker i = true ∨ (SCROLL_TIME_DURATION_S : ℚ) < e then some (i, e)
    else scrollLoop dur marker fuel (i + 1) e

/-- Abstract browser-level events issued by `search` and `run`. -/
inductive Ev where
  | nav : String → Ev
  | discovery : Ev
  | linkVisit : String → Ev
deriving DecidableEq

/-- Event-level embedding of `GoogleMapsEngine.search` (engine.py lines
72-77): navigate to `self.url`, then perform one full discovery pass
(`_get_search_results_urls`: hover, scroll loop, scrape). -/
def search_events (selfUrl : String) : List Ev :=
  [Ev.nav selfUrl, Ev.discovery]

/-- Event-level embedding of `GoogleMapsEngine.run` (engine.py lines
198-236): `run` first awaits `self.search()` (line 202), then awaits
`self._get_search_results_urls()` again (line 203) to obtain the link
list, then visits each discovered link (line 213). -/
def run_events (selfUrl : String) (urls : List String) : List Ev :=
  search_events selfUrl ++ [Ev.discovery] ++ urls.map Ev.linkVisit

/-- A data row's coordinate (its sixth and seventh cells) matches the
given reference coordinate strings: all four strings coerce to numbers
and the two latitudes and the two longitudes agree after rounding to
one decimal digit. -/
def rowMatchesRef (mainLat mainLang : String) (row : List String) : Prop :=
  ∃ ml mg pl pg : Dec,
    pyFloat mainLat = some ml ∧ pyFloat mainLang = some mg ∧
    pyFloat (row.getD 5 "") = some pl ∧ pyFloat (row.getD 6 "") = some pg ∧
    pyRound1 ml = pyRound1 pl ∧ pyRound1 mg = pyRound1 pg

/-- Constant field oracle used for concrete evaluations: every selector
lookup missed, so every field is the `'No Info'` sentinel. -/
def soup0 : String → SoupFields :=
  fun _ => ⟨"No Info", "No Info", "No Info", "No Info"⟩

/-- Fresh engine state: empty `_entries`, empty sink file. -/
def st0 : EngineState := ⟨[], []⟩

/-- Destructor for a successful positive coordinate verdict: all four
strings parsed and both rounded components agree. -/
theorem coordCheck_some_true {a b c d : String}
    (h : coordCheck a b c d = some true) :
    ∃ ml mg pl pg : Dec,
      pyFloat a = some ml ∧ pyFloat b = some mg ∧
      pyFloat c = some pl ∧ pyFloat d = some pg ∧
      pyRound1 ml = pyRound1 pl ∧ pyRound1 mg = pyRound1 pg := by
  unfold coordCheck at h
  cases h1 : pyFloat a with
  | none => rw [h1] at h; simp at h
  | some ml =>
    rw [h1] at h
    cases h2 : pyFloat b with
    | none => rw [h2] at h; simp at h
    | some mg =>
      rw [h2] at h
      cases h3 : pyFloat c with
      | none => rw [h3] at h; simp at h
      | some pl =>
        rw [h3] at h
        cases h4 : pyFloat d with
        | none => rw [h4] at h; simp at h
        | some pg =>
          rw [h4] at h
          simp only [Option.some.injEq, decide_eq_true_eq] at h
          exact ⟨ml, mg, pl, pg, rfl, rfl, rfl, rfl, h.1, h.2⟩

/-- Characterisation of the per-link loop: it only appends rows, appends
the same rows to the in-memory list and to the file, appends at most one
row per link, and every appended row is the data row of some processed
link whose coordinate verdict was positive.  This holds whether or not
the loop was aborted by an exception. -/
theorem runLoop_spec (soup : String → SoupFields) (mc : String × String) :
    ∀ (urls : List String) (e0 f0 : List (List String)),
    ∃ new : List (List String),
      (runLoop soup mc urls (e0, f0)).1 = (e0 ++ new, f0 ++ new) ∧
      new.length ≤ urls.length ∧
      ∀ row ∈ new, ∃ url ∈ urls, row = mkData (soup url) url ∧
        coordCheck mc.1 mc.2 (extract_lat_lang_from_url url).1
          (extract_lat_lang_from_url url).2 = some true := by
  intro urls
  induction urls with
  | nil =>
    intro e0 f0
    exact ⟨[], by simp [runLoop], by simp, by simp⟩
  | cons u rest ih =>
    intro e0 f0
    cases hc : coordCheck mc.1 mc.2 (extract_lat_lang_from_url u).1
        (extract_lat_lang_from_url u).2 with
    | none =>
      refine ⟨[], ?_, by simp, by simp⟩
      simp [runLoop, runStep, hc]
    | some b =>
      cases b with
      | false =>
        obtain ⟨new, h1, h2, h3⟩ := ih e0 f0
        refine ⟨new, ?_, ?_, ?_⟩
        · simpa [runLoop, runStep, hc] using h1
        · exact h2.trans (by simp)
        · intro row hr
          obtain ⟨url, hu, h4, h5⟩ := h3 row hr
          exact ⟨url, List.mem_cons_of_mem _ hu, h4, h5⟩
      | true =>
        obtain ⟨new, h1, h2, h3⟩ :=
          ih (e0 ++ [mkData (soup u) u]) (f0 ++ [mkData (soup u) u])
        refine ⟨mkData (soup u) u :: new, ?_, ?_, ?_⟩
        · have hstep : runLoop soup mc (u :: rest) (e0, f0) =
              runLoop soup mc rest
                (e0 ++ [mkData (soup u) u], f0 ++ [mkData (soup u) u]) := by
            simp [runLoop, runStep, hc]
          rw [hstep, h1]
          simp
        · simpa using Nat.succ_le_succ h2
        · intro row hr
          rcases List.mem_cons.mp hr with h | h
          · exact ⟨u, List.mem_cons_self _ _, h, hc⟩
          · obtain ⟨url, hu, h4, h5⟩ := h3 row h
            exact ⟨url, List.mem_cons_of_mem _ hu, h4, h5⟩

/-- Rows of `Ev.linkVisit` events contain no discovery event. -/
theorem count_discovery_map (urls : List String) :
    (urls.map Ev.linkVisit).count Ev.discovery = 0 := by
  induction urls with
  | nil => rfl
  | cons h t ih => simp [List.count_cons, ih]

/-- Rows of `Ev.linkVisit` events contain no navigation event. -/
theorem count_nav_map (u : String) (urls : List String) :
    (urls.map Ev.linkVisit).count (Ev.nav u) = 0 := by
  induction urls with
  | nil => rfl
  | cons h t ih => simp [List.count_cons, ih]

/-- Bounded-fuel termination of the scroll loop: if every scroll cycle
lasts at least the configured pause and the remaining fuel, at the
configured pause per cycle, is enough to push the elapsed time past the
ceiling, the loop stops with elapsed time at most the ceiling plus the
final cycle's duration. -/
theorem scrollLoop_stops (dur : ℕ → ℚ) (marker : ℕ → Bool)
    (hd : ∀ j, (SLEEP_PER_SCROLL_S : ℚ) ≤ dur j) :
    ∀ (fuel i : ℕ) (elapsed : ℚ),
      elapsed ≤ (SCROLL_TIME_DURATION_S : ℚ) →
      (SCROLL_TIME_DURATION_S : ℚ) <
        elapsed + (SLEEP_PER_SCROLL_S : ℚ) * fuel →
      ∃ k e, scrollLoop dur marker fuel i elapsed = some (k, e) ∧
        e ≤ (SCROLL_TIME_DURATION_S : ℚ) + dur k := by
  intro fuel
  induction fuel with
  | zero =>
    intro i elapsed h1 h2
    exfalso
    simp only [Nat.cast_zero, mul_zero, add_zero] at h2
    linarith
  | succ n ih =>
    intro i elapsed h1 h2
    by_cases hstop :
        marker i = true ∨ (SCROLL_TIME_DURATION_S : ℚ) < elapsed + dur i
    · refine ⟨i, elapsed + dur i, ?_, ?_⟩
      · simp [scrollLoop, hstop]
      · exact add_le_add_right h1 _
    · push_neg at hstop
      obtain ⟨hm, he⟩ := hstop
      have he' : elapsed + dur i ≤ (SCROLL_TIME_DURATION_S : ℚ) := he
      have hfuel : (SCROLL_TIME_DURATION_S : ℚ) <
          (elapsed + dur i) + (SLEEP_PER_SCROLL_S : ℚ) * n := by
        have hdi := hd i
        push_cast at h2
        nlinarith
      obtain ⟨k, e, hk, hke⟩ := ih (i + 1) (elapsed + dur i) he' hfuel
      have hcond : ¬ (marker i = true ∨
          (SCROLL_TIME_DURATION_S : ℚ) < elapsed + dur i) := by
        push_neg
        exact ⟨hm, he⟩
      refine ⟨k, e, ?_, hke⟩
      have hstep : scrollLoop dur marker (n + 1) i elapsed =
          scrollLoop dur marker n (i + 1) (elapsed + dur i) := by
        simp [scrollLoop, hcond]
      rw [hstep]
      exact hk

/-- C1 (code bug): a discovered link whose URL matches neither
coordinate pattern does not merely get skipped — the `float('No Info')`
coercion raises a `ValueError` that aborts the whole per-link loop.
With links `['nocoords', '!3d1.5!4d2.5']` the run aborts on the first
link and accepts nothing, although the second link alone would have been
accepted. -/
theorem run_aborts_on_unparsable_link :
    (run soup0 "@1.5,2.5," ["nocoords", "!3d1.5!4d2.5"] st0).2 = true ∧
    (run soup0 "@1.5,2.5," ["nocoords", "!3d1.5!4d2.5"] st0).1.entries = [] ∧
    (run soup0 "@1.5,2.5," ["nocoords", "!3d1.5!4d2.5"] st0).1.file =
      [FIELD_NAMES] ∧
    (run soup0 "@1.5,2.5," ["!3d1.5!4d2.5"] st0).2 = false ∧
    (run soup0 "@1.5,2.5," ["!3d1.5!4d2.5"] st0).1.entries =
      [mkData (soup0 "!3d1.5!4d2.5") "!3d1.5!4d2.5"] := by
  refine ⟨?_, ?_, ?_, ?_, ?_⟩ <;> decide

/-- C2 (code bug): when either side of the coordinate comparison is the
`'No Info'` sentinel, the inline match of `run` does not return `false`
— the `float` coercion raises (modelled by `none`). -/
theorem coord_match_raises_on_no_info :
    coordCheck "No Info" "No Info" "1.5" "2.5" = none ∧
    coordCheck "1.5" "2.5" "No Info" "No Info" = none ∧
    coordCheck "No Info" "No Info" "No Info" "No Info" = none := by
  refine ⟨?_, ?_, ?_⟩ <;> decide

/-- C3: for coordinates with defined numeric values, the verdict used by
`run`'s per-link loop accepts the record exactly when the two latitudes
rounded to one decimal digit are equal and the two longitudes rounded to
one decimal digit are equal, each coordinate rounded independently. -/
theorem coord_verdict_iff_rounded_equal
    (soup : String → SoupFields) (mlS mgS url : String)
    (e0 f0 : List (List String)) (ml mg pl pg : Dec)
    (h1 : pyFloat mlS = some ml) (h2 : pyFloat mgS = some mg)
    (h3 : pyFloat (extract_lat_lang_from_url url).1 = some pl)
    (h4 : pyFloat (extract_lat_lang_from_url url).2 = some pg) :
    runStep soup (mlS, mgS) url (e0, f0) =
      some (if pyRound1 ml = pyRound1 pl ∧ pyRound1 mg = pyRound1 pg
        then (e0 ++ [mkData (soup url) url], f0 ++ [mkData (soup url) url])
        else (e0, f0)) := by
  have hcc : coordCheck mlS mgS (extract_lat_lang_from_url url).1
      (extract_lat_lang_from_url url).2 =
      some (decide (pyRound1 ml = pyRound1 pl ∧ pyRound1 mg = pyRound1 pg)) := by
    unfold coordCheck
    rw [h1, h2, h3, h4]
  by_cases hP : pyRound1 ml = pyRound1 pl ∧ pyRound1 mg = pyRound1 pg
  · simp [runStep, hcc, hP]
  · simp [runStep, hcc, hP]

/-- C3 witness: a concrete matching link evaluated through the loop
body. -/
theorem coord_verdict_iff_rounded_equal_witness :
    runStep soup0 ("1.5", "2.5") "!3d1.5!4d2.5" ([], []) =
      some (if pyRound1 ⟨15, 1⟩ = pyRound1 ⟨15, 1⟩ ∧
            pyRound1 ⟨25, 1⟩ = pyRound1 ⟨25, 1⟩
        then ([mkData (soup0 "!3d1.5!4d2.5") "!3d1.5!4d2.5"],
              [mkData (soup0 "!3d1.5!4d2.5") "!3d1.5!4d2.5"])
        else ([], [])) :=
  coord_verdict_iff_rounded_equal soup0 "1.5" "2.5" "!3d1.5!4d2.5" [] []
    ⟨15, 1⟩ ⟨25, 1⟩ ⟨15, 1⟩ ⟨25, 1⟩
    (by decide) (by decide) (by decide) (by decide)

/-- C4 counterexample: on a URL that contains both `'!3d'` and `'!4d'`
markers but where the precise pattern fails to match while the coarse
pattern would match, the code returns the sentinel instead of falling
back to the coarse pattern, refuting the claimed fallback behaviour. -/
theorem extract_no_fallback_counterexample :
    extract_lat_lang_from_url "!3d!4d@1.5,2.5," = ("No Info", "No Info") ∧
    extractSpecFallback "!3d!4d@1.5,2.5," = ("1.5", "2.5") := by
  refine ⟨?_, ?_⟩ <;> decide

/-- C4 amended: `extract_lat_lang_from_url` tries the precise pattern
when both markers occur in the URL and otherwise tries the coarse
pattern (with no fallback from a failed precise search to the coarse
pattern); whenever neither pattern yields a match anywhere in the URL it
returns the `('No Info', 'No Info')` sentinel pair, never a numeric
default. -/
theorem extract_neither_pattern_no_info (url : String)
    (hp : searchPlace url.data = none) (ha : searchAt url.data = none) :
    extract_lat_lang_from_url url = ("No Info", "No Info") := by
  by_cases hb : (strContainsSub url "!3d" && strContainsSub url "!4d") = true
  · simp [extract_lat_lang_from_url, hb, hp]
  · simp [extract_lat_lang_from_url, hb, ha]

/-- C4 witness: a URL matching neither pattern. -/
theorem extract_neither_pattern_no_info_witness :
    searchPlace "nocoords".data = none ∧ searchAt "nocoords".data = none ∧
    extract_lat_lang_from_url "nocoords" = ("No Info", "No Info") :=
  ⟨by decide, by decide,
    extract_neither_pattern_no_info "nocoords" (by decide) (by decide)⟩

/-- C5: the scroll loop terminates in every execution, even when the
end-of-list marker never appears: provided every scroll cycle lasts at
least the configured pause, within `scrollFuel` cycles it stops, and
the elapsed wall-clock time at termination is at most
`SCROLL_TIME_DURATION_S` plus the duration of the final scroll cycle. -/
theorem scroll_loop_terminates_within_ceiling (dur : ℕ → ℚ)
    (marker : ℕ → Bool) (hd : ∀ j, (SLEEP_PER_SCROLL_S : ℚ) ≤ dur j) :
    ∃ k e, scrollLoop dur marker scrollFuel 0 0 = some (k, e) ∧
      e ≤ (SCROLL_TIME_DURATION_S : ℚ) + dur k := by
  apply scrollLoop_stops dur marker hd scrollFuel 0 0
  · exact Nat.cast_nonneg _
  · norm_num [SCROLL_TIME_DURATION_S, SLEEP_PER_SCROLL_S, scrollFuel]

/-- C5 witness: constant two-second cycles with a marker that never
appears. -/
theorem scroll_loop_terminates_within_ceiling_witness :
    ∃ k e, scrollLoop (fun _ => (2 : ℚ)) (fun _ => false) scrollFuel 0 0 =
        some (k, e) ∧
      e ≤ (SCROLL_TIME_DURATION_S : ℚ) + 2 := by
  obtain ⟨k, e, h1, h2⟩ :=
    scroll_loop_terminates_within_ceiling (fun _ => (2 : ℚ)) (fun _ => false)
      (fun j => by norm_num [SLEEP_PER_SCROLL_S])
  exact ⟨k, e, h1, h2⟩

/-- C6: in every execution of `run` (aborted or not), the data rows
appended to the sink beyond the header number at most the discovered
links, and every appended row carries a coordinate that equals the
reference coordinate after rounding latitude and longitude to one
decimal digit; unmatched records leave no partial write. -/
theorem run_writes_at_most_links_and_only_matched
    (soup : String → SoupFields) (selfUrl : String) (urls : List String)
    (st : EngineState) :
    ∃ new : List (List String),
      (run soup selfUrl urls st).1.file = st.file ++ FIELD_NAMES :: new ∧
      new.length ≤ urls.length ∧
      ∀ row ∈ new,
        rowMatchesRef (extract_lat_lang_from_url selfUrl).1
          (extract_lat_lang_from_url selfUrl).2 row := by
  obtain ⟨new, h1, h2, h3⟩ := runLoop_spec soup
    (extract_lat_lang_from_url selfUrl) urls st.entries
    (st.file ++ [FIELD_NAMES])
  have h1f := congrArg Prod.snd h1
  refine ⟨new, ?_, h2, ?_⟩
  · simpa [run] using h1f
  · intro row hr
    obtain ⟨url, hu, hrow, hcc⟩ := h3 row hr
    obtain ⟨ml, mg, pl, pg, e1, e2, e3, e4, e5, e6⟩ := coordCheck_some_true hcc
    refine ⟨ml, mg, pl, pg, e1, e2, ?_, ?_, e5, e6⟩
    · rw [hrow]
      simpa [mkData] using e3
    · rw [hrow]
      simpa [mkData] using e4

/-- C7: the rows appended to the in-memory `entries` list by `run` are
exactly, and in the same order as, the data rows appended to the sink
beyond the header — the invariant that backs a later full dump being
consistent with the incremental stream, and it holds at every loop
iteration since `urls` ranges over every prefix of the link list. -/
theorem run_entries_mirror_sink_rows
    (soup : String → SoupFields) (selfUrl : String) (urls : List String)
    (st : EngineState) :
    ∃ new : List (List String),
      (run soup selfUrl urls st).1.entries = st.entries ++ new ∧
      (run soup selfUrl urls st).1.file = st.file ++ FIELD_NAMES :: new := by
  obtain ⟨new, h1, _, _⟩ := runLoop_spec soup
    (extract_lat_lang_from_url selfUrl) urls st.entries
    (st.file ++ [FIELD_NAMES])
  have h1e := congrArg Prod.fst h1
  have h1f := congrArg Prod.snd h1
  exact ⟨new, by simpa [run] using h1e, by simpa [run] using h1f⟩

/-- C8: `save_to_csv` with an empty entries list raises its error before
the target file is opened, leaving the file state untouched (not created,
not written); with at least one entry it writes the header row followed
by the complete entries list in one pass. -/
theorem save_to_csv_empty_raises_nonempty_writes
    (file0 : Option (List (List String))) :
    save_to_csv [] file0 = (true, file0) ∧
    ∀ (e : List String) (es : List (List String)),
      save_to_csv (e :: es) file0 = (false, some (FIELD_NAMES :: e :: es)) := by
  exact ⟨rfl, fun e es => rfl⟩

/-- C9 counterexample: `run` does not perform the discovery pass exactly
once — already with an empty link list the event trace contains two
discovery passes. -/
theorem run_discovery_once_counterexample :
    ¬ ((run_events "url" []).count Ev.discovery = 1) := by decide

/-- C9 amended: within a single call, `run` navigates to the canonical
search URL exactly once but performs the full scroll-discovery pass
twice before iterating over the discovered links — once inside
`search()` (whose result is discarded) and once more to obtain the link
list actually iterated. -/
theorem run_performs_discovery_twice (selfUrl : String)
    (urls : List String) :
    (run_events selfUrl urls).count Ev.discovery = 2 ∧
    (run_events selfUrl urls).count (Ev.nav selfUrl) = 1 ∧
    run_events selfUrl urls =
      Ev.nav selfUrl :: Ev.discovery :: Ev.discovery ::
        urls.map Ev.linkVisit := by
  refine ⟨?_, ?_, ?_⟩
  · simp [run_events, search_events, List.count_cons, count_discovery_map]
  · simp [run_events, search_events, List.count_cons, count_nav_map]
  · simp [run_events, search_events]

/-- C10: every data-level execution of `run` keeps the prior contents of
`google_maps_leads.csv` as an untouched prefix (append mode) and
unconditionally appends a header row before any link is processed; a
run over zero links appends exactly the header row. -/
theorem run_appends_header_preserves_file
    (soup : String → SoupFields) (selfUrl : String) (urls : List String)
    (st : EngineState) :
    (∃ rows, (run soup selfUrl urls st).1.file =
      st.file ++ FIELD_NAMES :: rows) ∧
    (run soup selfUrl [] st).1.file = st.file ++ [FIELD_NAMES] := by
  constructor
  · obtain ⟨new, h1, _, _⟩ := runLoop_spec soup
      (extract_lat_lang_from_url selfUrl) urls st.entries
      (st.file ++ [FIELD_NAMES])
    have h1f := congrArg Prod.snd h1
    exact ⟨new, by simpa [run] using h1f⟩
  · simp [run, runLoop]

end LeadGen
